import Mathlib

/-!
Shallow embedding of the `river-layouts` repository (crates `carousel` and
`uniform-grid`), translated from `src/carousel/src/lib.rs` and
`src/uniform-grid/src/lib.rs`.

Modelling conventions:
* Rust `f32` values are modelled as exact rationals (`ℚ`); `as i32` casts from
  `f32` are modelled as truncation toward zero (`truncQ`).  All concrete inputs
  used in counterexamples and witnesses are small enough that `f32` arithmetic
  is exact there, so the divergence of the idealisation does not affect them.
* Rust `i32` is modelled as `ℤ`; the explicitly saturating operations
  (`saturating_add`, `saturating_sub`, `saturating_mul`) are modelled by
  clamping to the `i32` range.
* `try_into().unwrap()` from `i32` to the unsigned rectangle extents panics on
  negative inputs; a panic is modelled as `Option.none`, so `generate_layout`
  is embedded as an `Option`-valued function.
* Rust's `str::split_whitespace` is embedded as a structural recursion over the
  character list, and `f32::from_str` as a rational-number parser for the
  decimal grammar (sign, digits, optional fraction, optional exponent).
-/

/-- Truncation toward zero of a rational number, the semantics of Rust's
`as i32` cast from `f32` (for values inside the `i32` range). -/
def truncQ (q : ℚ) : ℤ := if 0 ≤ q then ⌊q⌋ else ⌈q⌉

/-- Smallest `i32` value. -/
def i32Min : ℤ := -(2 ^ 31)

/-- Largest `i32` value. -/
def i32Max : ℤ := 2 ^ 31 - 1

/-- Clamp an integer into the `i32` range. -/
def satI32 (n : ℤ) : ℤ := max i32Min (min i32Max n)

/-- Rust `i32::saturating_add`. -/
def satAdd (a b : ℤ) : ℤ := satI32 (a + b)

/-- Rust `i32::saturating_sub`. -/
def satSub (a b : ℤ) : ℤ := satI32 (a - b)

/-- Rust `i32::saturating_mul`. -/
def satMul (a b : ℤ) : ℤ := satI32 (a * b)

/-- Membership in the `i32` range, the condition under which the saturating
operations agree with exact integer arithmetic. -/
def isI32 (n : ℤ) : Prop := i32Min ≤ n ∧ n ≤ i32Max

instance (n : ℤ) : Decidable (isI32 n) := by
  unfold isI32
  infer_instance

/-- Rust `i32 → u32` conversion by `try_into()`: fails exactly on negative
inputs (every nonnegative `i32` fits in `u32`). `none` models the panic of the
`unwrap()` in the source. -/
def toU32 (n : ℤ) : Option ℕ := if 0 ≤ n then some n.toNat else none

/-- The `Rectangle` value type of `river_layout_toolkit`: signed position,
unsigned extents. -/
structure Rectangle where
  x : ℤ
  y : ℤ
  width : ℕ
  height : ℕ
deriving DecidableEq

/-- A rectangle before the `i32 → u32` extent conversions: all four
components as computed in signed arithmetic. -/
structure RawRect where
  x : ℤ
  y : ℤ
  w : ℤ
  h : ℤ
deriving DecidableEq

/-- Perform the two `try_into().unwrap()` conversions that build a
`Rectangle` from signed extents; `none` models the panic on a negative
extent. -/
def mkRect (r : RawRect) : Option Rectangle :=
  match toU32 r.w, toU32 r.h with
  | some W, some H => some { x := r.x, y := r.y, width := W, height := H }
  | _, _ => none

/-- The `GeneratedLayout` response type: a layout name and an ordered list of
rectangles. -/
structure GeneratedLayout where
  layout_name : String
  views : List Rectangle
deriving DecidableEq

/-- The `Error` enum shared verbatim by both crates. -/
inductive LayoutError where
  | UnknownCommand (text : String)
  | MissingArgument (name : String)
  | InvalidArgument (name : String)
deriving DecidableEq

/-- Collect a list of fallible computations, failing if any element fails:
the behaviour of iterating a panicking iterator to completion (`collect`). -/
def optSeq : List (Option α) → Option (List α)
  | [] => some []
  | o :: rest => o.bind fun a => (optSeq rest).map fun l => a :: l

/-- Helper for `tokens`: walk the character list, accumulating the current
word (reversed) and emitting it at whitespace boundaries. -/
def wsTokensAux : List Char → List Char → List String
  | [], acc => if acc.isEmpty then [] else [String.mk acc.reverse]
  | c :: rest, acc =>
    if c.isWhitespace then
      if acc.isEmpty then wsTokensAux rest []
      else String.mk acc.reverse :: wsTokensAux rest []
    else wsTokensAux rest (c :: acc)

/-- Rust `str::split_whitespace`: the maximal whitespace-free words of the
string, in order, with no empty words. -/
def tokens (s : String) : List String := wsTokensAux s.data []

/-- Numeric value of a list of decimal digit characters. -/
def digitsToNat (l : List Char) : ℕ :=
  l.foldl (fun a c => a * 10 + (c.toNat - 48)) 0

/-- The integer data of a parsed decimal number: overall sign, integer-part
value, fractional-part value, number of fractional digits, and decimal
exponent. -/
structure DecParts where
  sign : ℤ
  intVal : ℕ
  fracVal : ℕ
  fracLen : ℕ
  exp : ℤ
deriving DecidableEq

/-- Scanner for the finite decimal grammar of Rust `f32::from_str`: optional
sign, integer digits and/or a fractional part, and an optional decimal
exponent.  Returns the purely integer data of the number, or `none` when the
input is not in the grammar. -/
def scanDec (cs0 : List Char) : Option DecParts :=
  let sign : ℤ := if cs0.head? = some '-' then -1 else 1
  let cs1 := if cs0.head? = some '-' ∨ cs0.head? = some '+' then cs0.tail else cs0
  let intPart := cs1.takeWhile Char.isDigit
  let afterInt := cs1.dropWhile Char.isDigit
  let fracPart := if afterInt.head? = some '.' then afterInt.tail.takeWhile Char.isDigit else []
  let afterFrac := if afterInt.head? = some '.' then afterInt.tail.dropWhile Char.isDigit else afterInt
  if intPart.isEmpty ∧ fracPart.isEmpty then none
  else
    match afterFrac with
    | [] => some ⟨sign, digitsToNat intPart, digitsToNat fracPart, fracPart.length, 0⟩
    | e :: r =>
      if e = 'e' ∨ e = 'E' then
        let esign : ℤ := if r.head? = some '-' then -1 else 1
        let r1 := if r.head? = some '-' ∨ r.head? = some '+' then r.tail else r
        let expDigits := r1.takeWhile Char.isDigit
        let afterExp := r1.dropWhile Char.isDigit
        if expDigits.isEmpty ∨ ¬afterExp.isEmpty then none
        else some ⟨sign, digitsToNat intPart, digitsToNat fracPart, fracPart.length,
          esign * digitsToNat expDigits⟩
      else none

/-- Rational value of parsed decimal data. -/
def decValue (p : DecParts) : ℚ :=
  p.sign * ((p.intVal : ℚ) + (p.fracVal : ℚ) / 10 ^ p.fracLen) * (10 : ℚ) ^ p.exp

/-- Rust `f32::from_str`, modelled as an exact rational parser.  The
non-finite spellings (`inf`, `NaN`, …) have no rational value and are
modelled as parse failures; no claim in this development exercises them. -/
def parseReal (s : String) : Option ℚ := (scanDec s.data).map decValue

/-- The `Edge` enum of the carousel crate: the edge the main area extends
from. -/
inductive Edge where
  | Left
  | Right
  | Bottom
  | Top
deriving DecidableEq

/-- The carousel `Config` struct.  The source field `main_ratio` is named
`main_factor` here (`ℚ` models its `f32` value); all other fields keep their
source names. -/
structure CarouselConfig where
  main_location : Edge
  main_factor : ℚ
  secondary_window_size : ℚ
  outer_padding : ℤ
  view_padding : ℤ
  scroll_offset : ℚ
deriving DecidableEq

/-- `Config::default()` of the carousel crate. -/
def carouselDefault : CarouselConfig :=
  { main_location := Edge.Left
    main_factor := 3 / 5
    secondary_window_size := 1 / 2
    outer_padding := 6
    view_padding := 6
    scroll_offset := 0 }

/-- `usable_width as i32 - 2 * outer_padding`. -/
def paddedWidth (c : CarouselConfig) (uw : ℕ) : ℤ := (uw : ℤ) - 2 * c.outer_padding

/-- `usable_height as i32 - 2 * outer_padding`. -/
def paddedHeight (c : CarouselConfig) (uh : ℕ) : ℤ := (uh : ℤ) - 2 * c.outer_padding

/-- `((padded_width - view_padding) as f32 * main_ratio) as i32`. -/
def mainSplitWidthwise (c : CarouselConfig) (uw : ℕ) : ℤ :=
  truncQ ((paddedWidth c uw - c.view_padding : ℤ) * c.main_factor)

/-- `((padded_height - view_padding) as f32 * main_ratio) as i32`. -/
def mainSplitHeightwise (c : CarouselConfig) (uh : ℕ) : ℤ :=
  truncQ ((paddedHeight c uh - c.view_padding : ℤ) * c.main_factor)

/-- `padded_width - view_padding - main_split_widthwise`. -/
def secondarySplitWidthwise (c : CarouselConfig) (uw : ℕ) : ℤ :=
  paddedWidth c uw - c.view_padding - mainSplitWidthwise c uw

/-- `padded_height - view_padding - main_split_heightwise`. -/
def secondarySplitHeightwise (c : CarouselConfig) (uh : ℕ) : ℤ :=
  paddedHeight c uh - c.view_padding - mainSplitHeightwise c uh

/-- The shared "size from fraction of stride" formula,
`((d + v) as f32 * size) as i32 - v`. -/
def sizeFromFraction (d v : ℤ) (size : ℚ) : ℤ :=
  truncQ ((d + v : ℤ) * size) - v

/-- `((padded_width + view_padding) as f32 * secondary_window_size) as i32 -
view_padding`. -/
def secondarySizeWidthwise (c : CarouselConfig) (uw : ℕ) : ℤ :=
  sizeFromFraction (paddedWidth c uw) c.view_padding c.secondary_window_size

/-- `((padded_height + view_padding) as f32 * secondary_window_size) as i32 -
view_padding`. -/
def secondarySizeHeightwise (c : CarouselConfig) (uh : ℕ) : ℤ :=
  sizeFromFraction (paddedHeight c uh) c.view_padding c.secondary_window_size

/-- The `main_area` rectangle before its extent conversions, by the four-way
match on `main_location`.  Note the `Bottom` arm reproduces the source
verbatim: its `y` coordinate is computed from `usable_width`. -/
def mainRectRaw (c : CarouselConfig) (uw uh : ℕ) : RawRect :=
  match c.main_location with
  | Edge.Left =>
    { x := c.outer_padding, y := c.outer_padding
      w := mainSplitWidthwise c uw, h := paddedHeight c uh }
  | Edge.Top =>
    { x := c.outer_padding, y := c.outer_padding
      w := paddedWidth c uw, h := mainSplitHeightwise c uh }
  | Edge.Right =>
    { x := (uw : ℤ) - c.outer_padding - mainSplitWidthwise c uw, y := c.outer_padding
      w := mainSplitWidthwise c uw, h := paddedHeight c uh }
  | Edge.Bottom =>
    { x := c.outer_padding, y := (uw : ℤ) - c.outer_padding - mainSplitHeightwise c uh
      w := paddedWidth c uw, h := mainSplitHeightwise c uh }

/-- The `secondary_base` rectangle before its extent conversions. -/
def secondaryBaseRaw (c : CarouselConfig) (uw uh : ℕ) : RawRect :=
  match c.main_location with
  | Edge.Left =>
    { x := c.outer_padding + mainSplitWidthwise c uw + c.view_padding
      y := c.outer_padding
      w := secondarySplitWidthwise c uw, h := secondarySizeHeightwise c uh }
  | Edge.Top =>
    { x := c.outer_padding
      y := c.outer_padding + mainSplitHeightwise c uh + c.view_padding
      w := secondarySizeWidthwise c uw, h := secondarySplitHeightwise c uh }
  | Edge.Right =>
    { x := c.outer_padding, y := c.outer_padding
      w := secondarySplitWidthwise c uw, h := secondarySizeHeightwise c uh }
  | Edge.Bottom =>
    { x := c.outer_padding, y := c.outer_padding
      w := secondarySizeWidthwise c uw, h := secondarySplitHeightwise c uh }

/-- `secondary_stride_x`: zero for vertical scrolling, otherwise the cell
extent plus one view padding. -/
def secondaryStrideX (c : CarouselConfig) (uw : ℕ) : ℤ :=
  match c.main_location with
  | Edge.Left | Edge.Right => 0
  | Edge.Top | Edge.Bottom => secondarySizeWidthwise c uw + c.view_padding

/-- `secondary_stride_y`. -/
def secondaryStrideY (c : CarouselConfig) (uh : ℕ) : ℤ :=
  match c.main_location with
  | Edge.Left | Edge.Right => secondarySizeHeightwise c uh + c.view_padding
  | Edge.Top | Edge.Bottom => 0

/-- `(secondary_stride_x as f32 * scroll_offset) as i32`. -/
def scrollX (c : CarouselConfig) (uw : ℕ) : ℤ :=
  truncQ ((secondaryStrideX c uw : ℤ) * c.scroll_offset)

/-- `(secondary_stride_y as f32 * scroll_offset) as i32`. -/
def scrollY (c : CarouselConfig) (uh : ℕ) : ℤ :=
  truncQ ((secondaryStrideY c uh : ℤ) * c.scroll_offset)

/-- The `i`-th secondary rectangle: the base rectangle shifted by `i`
strides and back by the scroll amounts, all with saturating arithmetic,
copying the base extents. -/
def secondaryRect (b : Rectangle) (sx sy cx cy : ℤ) (i : ℕ) : Rectangle :=
  { x := satSub (satAdd b.x (satMul sx (i : ℤ))) cx
    y := satSub (satAdd b.y (satMul sy (i : ℤ))) cy
    width := b.width
    height := b.height }

/-- `[main_area].into_iter().chain((0i32..).map(secondary)).take(view_count)`:
the main rectangle followed by the first `view_count - 1` secondary
rectangles. -/
def carouselViews (m : Rectangle) (f : ℕ → Rectangle) (vc : ℕ) : List Rectangle :=
  match vc with
  | 0 => []
  | n + 1 => m :: (List.range n).map f

/-- `Carousel::generate_layout`, with the two panicking extent conversions
modelled by `Option`. -/
def carouselGenerateLayout (c : CarouselConfig) (vc uw uh : ℕ) : Option GeneratedLayout :=
  match mkRect (mainRectRaw c uw uh), mkRect (secondaryBaseRaw c uw uh) with
  | some m, some b =>
    some { layout_name := "carousel"
           views := carouselViews m
             (secondaryRect b (secondaryStrideX c uw) (secondaryStrideY c uh)
               (scrollX c uw) (scrollY c uh)) vc }
  | _, _ => none

/-- `Carousel::generate_layout` as the `&mut self` method it is in the
source: the configuration is threaded through and returned unchanged, since
the method body contains no assignment to it. -/
def carouselGenerateLayoutS (c : CarouselConfig) (vc uw uh : ℕ) :
    CarouselConfig × Option GeneratedLayout :=
  (c, carouselGenerateLayout c vc uw uh)

/-- `Carousel::user_cmd_inner`: dispatch on the first whitespace token;
`scroll <amount>` parses the amount and adds it to `scroll_offset`; anything
else is an error.  Returned alongside the (possibly updated) configuration. -/
def userCmdInner (c : CarouselConfig) (cmd : String) :
    CarouselConfig × Except LayoutError Unit :=
  match tokens cmd with
  | [] => (c, Except.error (LayoutError.UnknownCommand ""))
  | verb :: rest =>
    if verb = "scroll" then
      match rest with
      | [] => (c, Except.error (LayoutError.MissingArgument "amount"))
      | arg :: _ =>
        match parseReal arg with
        | none => (c, Except.error (LayoutError.InvalidArgument "amount"))
        | some amount =>
          ({ c with scroll_offset := c.scroll_offset + amount }, Except.ok ())
    else (c, Except.error (LayoutError.UnknownCommand verb))

/-- The uniform-grid `Config` struct. -/
structure GridConfig where
  target_aspect : ℚ
  outer_padding : ℤ
  view_padding : ℤ
deriving DecidableEq

/-- `Config::default()` of the uniform-grid crate. -/
def gridDefault : GridConfig :=
  { target_aspect := 16 / 9, outer_padding := 6, view_padding := 6 }

/-- The `Grid` struct: its size as `(columns, rows)`, the `(x, y)` components
of the source's `IVec2`. -/
structure Grid where
  size : ℤ × ℤ
deriving DecidableEq

/-- `Grid::total_cells`. -/
def totalCells (g : Grid) : ℤ := g.size.1 * g.size.2

/-- The `GridLayout` struct: `offset` and `stride` are `f32` vectors
(modelled as `ℚ × ℚ`), `view_size` an integer vector. -/
structure GridLayout where
  offset : ℚ × ℚ
  stride : ℚ × ℚ
  view_size : ℤ × ℤ
deriving DecidableEq

/-- `Grid::layout`: componentwise padded size, stride and view size. -/
def gridLayout (g : Grid) (c : GridConfig) (out : ℤ × ℤ) : GridLayout :=
  let offset : ℚ × ℚ := ((c.outer_padding : ℚ), (c.outer_padding : ℚ))
  let padded : ℚ × ℚ := ((out.1 : ℚ) - 2 * offset.1, (out.2 : ℚ) - 2 * offset.2)
  let stride : ℚ × ℚ :=
    ((padded.1 + (c.view_padding : ℚ)) / (g.size.1 : ℚ),
      (padded.2 + (c.view_padding : ℚ)) / (g.size.2 : ℚ))
  { offset := offset
    stride := stride
    view_size := (truncQ stride.1 - c.view_padding, truncQ stride.2 - c.view_padding) }

/-- `GridLayout::aspect_ratio` (renamed): `view_size.x as f32 / view_size.y
as f32`. -/
def cellAspect (L : GridLayout) : ℚ := (L.view_size.1 : ℚ) / (L.view_size.2 : ℚ)

/-- `GridLayout::efficiency`: how far the cell aspect deviates from the
target. -/
def efficiency (L : GridLayout) (target : ℚ) : ℚ :=
  let arr := cellAspect L / target
  if 1 < arr then arr else 1 / arr

/-- `GridLayout::at`: the cell rectangle at a grid position, with the two
panicking extent conversions modelled by `Option`. -/
def gridAt (L : GridLayout) (pos : ℤ × ℤ) : Option Rectangle :=
  let px := truncQ (L.offset.1 + L.stride.1 * (pos.1 : ℚ))
  let py := truncQ (L.offset.2 + L.stride.2 * (pos.2 : ℚ))
  match toU32 L.view_size.1, toU32 L.view_size.2 with
  | some W, some H => some { x := px, y := py, width := W, height := H }
  | _, _ => none

/-- The `min_by_key` scoring in the grid search: `(efficiency * 1000000.0)
as i32`. -/
def gridKey (c : GridConfig) (out : ℤ × ℤ) (g : Grid) : ℤ :=
  truncQ (efficiency (gridLayout g c out) c.target_aspect * 1000000)

/-- One iteration of the grid-size search: of the two candidate grids (one
more column, one more row), adopt the one with the smaller key, the first on
ties (`Iterator::min_by_key`). -/
def gridStep (c : GridConfig) (out : ℤ × ℤ) (g : Grid) : Grid :=
  let withColumn : Grid := { size := (g.size.1 + 1, g.size.2) }
  let withRow : Grid := { size := (g.size.1, g.size.2 + 1) }
  if gridKey c out withColumn ≤ gridKey c out withRow then withColumn else withRow

/-- The `while (grid.total_cells() as u32) < view_count` loop of the grid
search, embedded with an explicit iteration bound; `gridSearch` supplies a
bound that is provably sufficient, so the bound never cuts the loop short. -/
def gridSearchAux (c : GridConfig) (out : ℤ × ℤ) (vc : ℕ) : ℕ → Grid → Grid
  | 0, g => g
  | fuel + 1, g =>
    if vc ≤ (totalCells g).toNat then g
    else gridSearchAux c out vc fuel (gridStep c out g)

/-- The grid-size search: start from `1 × 1` and grow until the cell count
reaches `view_count`. -/
def gridSearch (c : GridConfig) (out : ℤ × ℤ) (vc : ℕ) : Grid :=
  gridSearchAux c out vc vc { size := (1, 1) }

/-- The boustrophedon cell of view index `i` in a grid with `cols` columns:
`row = i / cols`, and the column position mirrored on odd rows.  Rust's `i32`
division and remainder truncate, hence `Int.tdiv` and `Int.tmod`. -/
def snakeCell (cols : ℤ) (i : ℤ) : ℤ × ℤ :=
  let column_base := Int.tmod i cols
  let row := Int.tdiv i cols
  (if Int.tmod row 2 = 0 then column_base else cols - 1 - column_base, row)

/-- `UniformGrid::generate_layout`, with the panicking extent conversions of
`GridLayout::at` modelled by `Option`. -/
def uniformGridGenerateLayout (c : GridConfig) (vc uw uh : ℕ) : Option GeneratedLayout :=
  let out : ℤ × ℤ := ((uw : ℤ), (uh : ℤ))
  let grid := gridSearch c out vc
  let L := gridLayout grid c out
  match optSeq ((List.range vc).map fun (i : ℕ) => gridAt L (snakeCell grid.size.1 (i : ℤ))) with
  | some vs =>
    some { layout_name := "uniform-grid: " ++ toString grid.size.2 ++ "x" ++ toString grid.size.1
           views := vs }
  | none => none

/-- `UniformGrid::generate_layout` as the `&mut self` method it is in the
source: the configuration is threaded through and returned unchanged, since
the method body contains no assignment to it. -/
def uniformGridGenerateLayoutS (c : GridConfig) (vc uw uh : ℕ) :
    GridConfig × Option GeneratedLayout :=
  (c, uniformGridGenerateLayout c vc uw uh)

/-- The configuration after incrementing `scroll_offset` by one. -/
def bumpScroll (c : CarouselConfig) : CarouselConfig :=
  { c with scroll_offset := c.scroll_offset + 1 }

/-- The in-range conditions under which the saturating position chain
`satSub (satAdd b (satMul s i)) sc` of a secondary rectangle computes the
exact value `b + s * i - sc`. -/
def satOkAt (b s sc : ℤ) (i : ℕ) : Prop :=
  isI32 (s * (i : ℤ)) ∧ isI32 (b + s * (i : ℤ)) ∧ isI32 (b + s * (i : ℤ) - sc)

instance (b s sc : ℤ) (i : ℕ) : Decidable (satOkAt b s sc i) := by
  unfold satOkAt
  infer_instance

theorem truncQ_intCast (n : ℤ) : truncQ (n : ℚ) = n := by
  unfold truncQ
  rcases le_or_lt 0 ((n : ℚ)) with h | h
  · rw [if_pos h, Int.floor_intCast]
  · rw [if_neg (not_le.mpr h), Int.ceil_intCast]

theorem truncQ_add_int (q : ℚ) (n : ℤ) (hq : 0 ≤ q) (hn : 0 ≤ n) :
    truncQ (q + n) = truncQ q + n := by
  have hn2 : (0 : ℚ) ≤ (n : ℚ) := by exact_mod_cast hn
  unfold truncQ
  rw [if_pos hq, if_pos (by linarith), Int.floor_add_int]

theorem satI32_eq {n : ℤ} (h : isI32 n) : satI32 n = n := by
  obtain ⟨h1, h2⟩ := h
  unfold satI32
  omega

theorem mkRect_eq {r : RawRect} (h1 : 0 ≤ r.w) (h2 : 0 ≤ r.h) :
    mkRect r = some { x := r.x, y := r.y, width := r.w.toNat, height := r.h.toNat } := by
  unfold mkRect toU32
  rw [if_pos h1, if_pos h2]

theorem mkRect_pos {r : RawRect} {b : Rectangle} (h : mkRect r = some b) :
    b.x = r.x ∧ b.y = r.y := by
  unfold mkRect toU32 at h
  by_cases h1 : 0 ≤ r.w
  · by_cases h2 : 0 ≤ r.h
    · rw [if_pos h1, if_pos h2] at h
      cases h
      exact ⟨rfl, rfl⟩
    · rw [if_pos h1, if_neg h2] at h
      cases h
  · rw [if_neg h1] at h
    cases h

theorem optSeq_length {l : List (Option α)} {r : List α} (h : optSeq l = some r) :
    r.length = l.length := by
  induction l generalizing r with
  | nil =>
    cases h
    rfl
  | cons o rest ih =>
    unfold optSeq at h
    cases o with
    | none => cases h
    | some a =>
      cases hr : optSeq rest with
      | none =>
        rw [hr] at h
        cases h
      | some l2 =>
        rw [hr] at h
        cases h
        simp [ih hr]

theorem optSeq_getElem {l : List (Option α)} {r : List α} (h : optSeq l = some r)
    (i : ℕ) : r[i]? = l[i]?.join := by
  induction l generalizing r i with
  | nil =>
    cases h
    simp
  | cons o rest ih =>
    unfold optSeq at h
    cases o with
    | none => cases h
    | some a =>
      cases hr : optSeq rest with
      | none =>
        rw [hr] at h
        cases h
      | some l2 =>
        rw [hr] at h
        cases h
        cases i with
        | zero => simp
        | succ j => simpa using ih hr j

theorem optSeq_isSome {l : List (Option α)} (h : ∀ o ∈ l, o.isSome) :
    (optSeq l).isSome := by
  induction l with
  | nil => simp [optSeq]
  | cons o rest ih =>
    have ho : o.isSome := h o (List.mem_cons_self o rest)
    have hrest : (optSeq rest).isSome := ih (fun o2 ho2 => h o2 (List.mem_cons_of_mem o ho2))
    unfold optSeq
    cases o with
    | none => cases ho
    | some a =>
      cases hr : optSeq rest with
      | none =>
        rw [hr] at hrest
        cases hrest
      | some l2 => simp

theorem carouselViews_length (m : Rectangle) (f : ℕ → Rectangle) (vc : ℕ) :
    (carouselViews m f vc).length = vc := by
  cases vc with
  | zero => rfl
  | succ n => simp [carouselViews]

/-- Claim C10: `generate_layout` of either engine leaves the engine's
configuration entirely unchanged (including the carousel's `scroll_offset`):
the method bodies never assign to the configuration, so the threaded-through
configuration is returned as it came in. -/
theorem generate_layout_config_unchanged (cc : CarouselConfig) (gc : GridConfig)
    (vc uw uh : ℕ) :
    (carouselGenerateLayoutS cc vc uw uh).1 = cc ∧
      (uniformGridGenerateLayoutS gc vc uw uh).1 = gc :=
  ⟨rfl, rfl⟩

theorem parseReal_three : parseReal "3" = some 3 := by
  have h : scanDec "3".data = some ⟨1, 3, 0, 0, 0⟩ := by decide
  rw [parseReal, h]
  norm_num [decValue]

theorem parseReal_neg_three : parseReal "-3" = some (-3) := by
  have h : scanDec "-3".data = some ⟨-1, 3, 0, 0, 0⟩ := by decide
  rw [parseReal, h]
  norm_num [decValue]

theorem userCmdInner_scroll_three (c : CarouselConfig) :
    userCmdInner c "scroll 3" =
      ({ c with scroll_offset := c.scroll_offset + 3 }, Except.ok ()) := by
  have ht : tokens "scroll 3" = ["scroll", "3"] := by decide
  rw [userCmdInner, ht]
  simp [parseReal_three]

theorem userCmdInner_scroll_neg_three (c : CarouselConfig) :
    userCmdInner c "scroll -3" =
      ({ c with scroll_offset := c.scroll_offset + (-3) }, Except.ok ()) := by
  have ht : tokens "scroll -3" = ["scroll", "-3"] := by decide
  rw [userCmdInner, ht]
  simp [parseReal_neg_three]

/-- Claim C8: `scroll 3` followed by `scroll -3` restores the configuration
(in particular `scroll_offset`) exactly, and therefore a subsequent
`generate_layout` call with the same arguments returns the same layout. -/
theorem scroll_roundtrip (c : CarouselConfig) (vc uw uh : ℕ) :
    (userCmdInner (userCmdInner c "scroll 3").1 "scroll -3").1 = c ∧
      carouselGenerateLayout
          (userCmdInner (userCmdInner c "scroll 3").1 "scroll -3").1 vc uw uh =
        carouselGenerateLayout c vc uw uh := by
  have hc : (userCmdInner (userCmdInner c "scroll 3").1 "scroll -3").1 = c := by
    rw [userCmdInner_scroll_three, userCmdInner_scroll_neg_three]
    have harith : c.scroll_offset + 3 + (-3) = c.scroll_offset := by ring
    simp only [harith]
  exact ⟨hc, by rw [hc]⟩

/-- Claim C6: dispatch of `user_cmd` commands — a lone `scroll` fails with
`MissingArgument`, `scroll` with an unparsable amount fails with
`InvalidArgument`, a first token other than `scroll` fails with
`UnknownCommand` carrying that token, a parsable amount is added to
`scroll_offset`, and every failing case leaves the configuration
unchanged. -/
theorem user_cmd_dispatch (c : CarouselConfig) (cmd : String) :
    (tokens cmd = ["scroll"] →
      userCmdInner c cmd = (c, Except.error (LayoutError.MissingArgument "amount"))) ∧
    (∀ arg rest, tokens cmd = "scroll" :: arg :: rest → parseReal arg = none →
      userCmdInner c cmd = (c, Except.error (LayoutError.InvalidArgument "amount"))) ∧
    (∀ arg rest q, tokens cmd = "scroll" :: arg :: rest → parseReal arg = some q →
      userCmdInner c cmd =
        ({ c with scroll_offset := c.scroll_offset + q }, Except.ok ())) ∧
    (∀ verb rest, tokens cmd = verb :: rest → verb ≠ "scroll" →
      userCmdInner c cmd = (c, Except.error (LayoutError.UnknownCommand verb))) ∧
    (∀ e, (userCmdInner c cmd).2 = Except.error e → (userCmdInner c cmd).1 = c) := by
  have h1 : tokens cmd = ["scroll"] →
      userCmdInner c cmd = (c, Except.error (LayoutError.MissingArgument "amount")) := by
    intro ht
    rw [userCmdInner, ht]
    simp
  have h2 : ∀ arg rest, tokens cmd = "scroll" :: arg :: rest → parseReal arg = none →
      userCmdInner c cmd = (c, Except.error (LayoutError.InvalidArgument "amount")) := by
    intro arg rest ht hp
    rw [userCmdInner, ht]
    simp [hp]
  have h3 : ∀ arg rest q, tokens cmd = "scroll" :: arg :: rest → parseReal arg = some q →
      userCmdInner c cmd =
        ({ c with scroll_offset := c.scroll_offset + q }, Except.ok ()) := by
    intro arg rest q ht hp
    rw [userCmdInner, ht]
    simp [hp]
  have h4 : ∀ verb rest, tokens cmd = verb :: rest → verb ≠ "scroll" →
      userCmdInner c cmd = (c, Except.error (LayoutError.UnknownCommand verb)) := by
    intro verb rest ht hv
    rw [userCmdInner, ht]
    simp [hv]
  refine ⟨h1, h2, h3, h4, ?_⟩
  intro e he
  rcases htok : tokens cmd with _ | ⟨verb, rest⟩
  · rw [userCmdInner, htok]
  · by_cases hv : verb = "scroll"
    · subst hv
      rcases rest with _ | ⟨arg, r2⟩
      · rw [h1 htok]
      · cases hp : parseReal arg with
        | none => rw [h2 arg r2 htok hp]
        | some q =>
          rw [h3 arg r2 q htok hp] at he
          simp at he
    · rw [h4 verb rest htok hv]

theorem user_cmd_dispatch_witness :
    userCmdInner carouselDefault "scroll" =
      (carouselDefault, Except.error (LayoutError.MissingArgument "amount")) ∧
    userCmdInner carouselDefault "scroll abc" =
      (carouselDefault, Except.error (LayoutError.InvalidArgument "amount")) ∧
    userCmdInner carouselDefault "frobnicate" =
      (carouselDefault, Except.error (LayoutError.UnknownCommand "frobnicate")) ∧
    userCmdInner carouselDefault "scroll 3" =
      ({ carouselDefault with scroll_offset := carouselDefault.scroll_offset + 3 },
        Except.ok ()) := by
  refine ⟨?_, ?_, ?_, ?_⟩
  · exact (user_cmd_dispatch carouselDefault "scroll").1 (by decide)
  · exact (user_cmd_dispatch carouselDefault "scroll abc").2.1 "abc" [] (by decide) rfl
  · exact (user_cmd_dispatch carouselDefault "frobnicate").2.2.2.1 "frobnicate" []
      (by decide) (by decide)
  · exact (user_cmd_dispatch carouselDefault "scroll 3").2.2.1 "3" [] 3 (by decide)
      parseReal_three

/-- Claim C9 counterexample: `D = 5`, `v = 2` has `D + v` odd, so the two
cells of extent `floor((D + v)/2) - v` plus one gutter cover `D - 1`, not
`D`: `2 * 1 + 2 = 4 ≠ 5`. -/
theorem size_fraction_half_odd_cex :
    2 * sizeFromFraction 5 2 (1 / 2) + 2 ≠ 5 := by
  norm_num [sizeFromFraction, truncQ]

/-- Claim C9 (amended): the "size from fraction of stride" formula with
`size = 1/2` yields two cells that, separated by one `v`-wide gutter, fill
`D` exactly whenever `D + v` is even (when `D + v` is odd the floor loses one
pixel and they fill `D - 1`). -/
theorem size_fraction_half_even (D v : ℤ) (h : (D + v) % 2 = 0) :
    2 * sizeFromFraction D v (1 / 2) + v = D := by
  obtain ⟨k, hk⟩ : ∃ k, D + v = 2 * k := ⟨(D + v) / 2, by omega⟩
  unfold sizeFromFraction
  have hq : ((D + v : ℤ) : ℚ) * (1 / 2) = ((k : ℤ) : ℚ) := by
    rw [hk]
    push_cast
    ring
  rw [hq, truncQ_intCast]
  omega

theorem size_fraction_half_even_witness :
    ((6 : ℤ) + 2) % 2 = 0 ∧ 2 * sizeFromFraction 6 2 (1 / 2) + 2 = 6 :=
  ⟨by decide, size_fraction_half_even 6 2 (by decide)⟩

/-- Claim C1 (code bug): with `main_location = Bottom` on a 1206×768 usable
area, the main rectangle's bottom edge lands at `usable_width -
outer_padding` (1200), not at `usable_height - outer_padding` (762): the
source computes the Bottom `y` coordinate from `usable_width`. -/
theorem bottom_main_anchored_to_width :
    carouselGenerateLayout { carouselDefault with main_location := Edge.Bottom } 1 1206 768 =
      some { layout_name := "carousel"
             views := [{ x := 6, y := 750, width := 1194, height := 450 }] } ∧
    (750 : ℤ) + 450 ≠ 768 - 6 ∧ (750 : ℤ) + 450 = 1206 - 6 := by
  refine ⟨?_, by decide, by decide⟩
  norm_num [carouselGenerateLayout, carouselDefault, mainRectRaw, secondaryBaseRaw,
    mainSplitWidthwise, mainSplitHeightwise, paddedWidth, paddedHeight,
    secondarySplitWidthwise, secondarySplitHeightwise, secondarySizeWidthwise,
    secondarySizeHeightwise, sizeFromFraction, truncQ, mkRect, toU32, carouselViews]
  decide

/-- Claim C2 counterexample: the default carousel configuration on a 10×10
usable area gives a negative main-split width, the `i32 → u32` conversion
fails (an `unwrap` panic in the source), and no layout is produced. -/
theorem generate_layout_panic_cex :
    carouselGenerateLayout carouselDefault 1 10 10 = none := by
  norm_num [carouselGenerateLayout, carouselDefault, mainRectRaw, secondaryBaseRaw,
    mainSplitWidthwise, mainSplitHeightwise, paddedWidth, paddedHeight,
    secondarySplitWidthwise, secondarySplitHeightwise, secondarySizeWidthwise,
    secondarySizeHeightwise, sizeFromFraction, truncQ, Int.ceil_neg, mkRect, toU32]

/-- Claim C2 (amended): `generate_layout` of either engine returns a complete
`GeneratedLayout` whenever every computed signed extent is nonnegative; when
an extent goes negative the conversion to the unsigned rectangle type fails
(an `unwrap` panic) instead of a degenerate rectangle being emitted. -/
theorem generate_layout_total (cc : CarouselConfig) (gc : GridConfig) (vc uw uh : ℕ)
    (h1 : 0 ≤ (mainRectRaw cc uw uh).w) (h2 : 0 ≤ (mainRectRaw cc uw uh).h)
    (h3 : 0 ≤ (secondaryBaseRaw cc uw uh).w) (h4 : 0 ≤ (secondaryBaseRaw cc uw uh).h)
    (h5 : 0 ≤ (gridLayout (gridSearch gc ((uw : ℤ), (uh : ℤ)) vc) gc
      ((uw : ℤ), (uh : ℤ))).view_size.1)
    (h6 : 0 ≤ (gridLayout (gridSearch gc ((uw : ℤ), (uh : ℤ)) vc) gc
      ((uw : ℤ), (uh : ℤ))).view_size.2) :
    (carouselGenerateLayout cc vc uw uh).isSome ∧
      (uniformGridGenerateLayout gc vc uw uh).isSome := by
  constructor
  · rw [carouselGenerateLayout, mkRect_eq h1 h2, mkRect_eq h3 h4]
    rfl
  · simp only [uniformGridGenerateLayout]
    have hAll : ∀ o ∈ (List.range vc).map (fun (i : ℕ) =>
        gridAt (gridLayout (gridSearch gc ((uw : ℤ), (uh : ℤ)) vc) gc ((uw : ℤ), (uh : ℤ)))
          (snakeCell (gridSearch gc ((uw : ℤ), (uh : ℤ)) vc).size.1 (i : ℤ))), o.isSome := by
      intro o ho
      rw [List.mem_map] at ho
      obtain ⟨i, _, rfl⟩ := ho
      rw [gridAt]
      unfold toU32
      rw [if_pos h5, if_pos h6]
      rfl
    have hs := optSeq_isSome hAll
    rw [Option.isSome_iff_exists] at hs
    obtain ⟨vs, hseq⟩ := hs
    rw [hseq]
    rfl

theorem gridStep_default_11 :
    gridStep gridDefault (1206, 768) { size := (1, 1) } = { size := (1, 2) } := by
  norm_num [gridStep, gridKey, efficiency, cellAspect, gridLayout, gridDefault, truncQ]

theorem gridStep_default_12 :
    gridStep gridDefault (1206, 768) { size := (1, 2) } = { size := (2, 2) } := by
  norm_num [gridStep, gridKey, efficiency, cellAspect, gridLayout, gridDefault, truncQ]

theorem gridSearch_default_3 :
    gridSearch gridDefault (1206, 768) 3 = { size := (2, 2) } := by
  norm_num [gridSearch, gridSearchAux, totalCells, gridStep_default_11, gridStep_default_12,
    -Prod.mk_one_one]

theorem generate_layout_total_witness :
    (carouselGenerateLayout carouselDefault 3 1206 768).isSome ∧
      (uniformGridGenerateLayout gridDefault 3 1206 768).isSome := by
  apply generate_layout_total
  · norm_num [mainRectRaw, carouselDefault, mainSplitWidthwise, paddedWidth, truncQ]
  · norm_num [mainRectRaw, carouselDefault, paddedHeight]
  · norm_num [secondaryBaseRaw, carouselDefault, secondarySplitWidthwise, paddedWidth,
      mainSplitWidthwise, truncQ]
  · norm_num [secondaryBaseRaw, carouselDefault, secondarySizeHeightwise, sizeFromFraction,
      paddedHeight, truncQ]
  · rw [show ((1206 : ℕ) : ℤ) = (1206 : ℤ) by norm_num, show ((768 : ℕ) : ℤ) = (768 : ℤ) by norm_num,
      gridSearch_default_3]
    norm_num [gridLayout, gridDefault, truncQ]
  · rw [show ((1206 : ℕ) : ℤ) = (1206 : ℤ) by norm_num, show ((768 : ℕ) : ℤ) = (768 : ℤ) by norm_num,
      gridSearch_default_3]
    norm_num [gridLayout, gridDefault, truncQ]

/-- Claim C3: whenever `generate_layout` returns (for any `view_count ≥ 1`
and usable size), the returned views sequence has length exactly
`view_count`, for both engines. -/
theorem views_length_eq_view_count (cc : CarouselConfig) (gc : GridConfig)
    (vc uw uh : ℕ) (gl1 gl2 : GeneratedLayout) (_hvc : 1 ≤ vc)
    (hc : carouselGenerateLayout cc vc uw uh = some gl1)
    (hg : uniformGridGenerateLayout gc vc uw uh = some gl2) :
    gl1.views.length = vc ∧ gl2.views.length = vc := by
  constructor
  · rw [carouselGenerateLayout] at hc
    cases hm : mkRect (mainRectRaw cc uw uh) with
    | none =>
      rw [hm] at hc
      cases hc
    | some m =>
      cases hb : mkRect (secondaryBaseRaw cc uw uh) with
      | none =>
        rw [hm, hb] at hc
        cases hc
      | some b =>
        rw [hm, hb] at hc
        cases hc
        exact carouselViews_length m _ vc
  · simp only [uniformGridGenerateLayout] at hg
    cases hseq : optSeq ((List.range vc).map (fun (i : ℕ) =>
        gridAt (gridLayout (gridSearch gc ((uw : ℤ), (uh : ℤ)) vc) gc ((uw : ℤ), (uh : ℤ)))
          (snakeCell (gridSearch gc ((uw : ℤ), (uh : ℤ)) vc).size.1 (i : ℤ)))) with
    | none =>
      rw [hseq] at hg
      cases hg
    | some vs =>
      rw [hseq] at hg
      cases hg
      have hlen := optSeq_length hseq
      simpa using hlen

theorem carousel_default_layout_3 :
    carouselGenerateLayout carouselDefault 3 1206 768 =
      some { layout_name := "carousel"
             views := [{ x := 6, y := 6, width := 712, height := 756 },
                       { x := 724, y := 6, width := 476, height := 375 },
                       { x := 724, y := 387, width := 476, height := 375 }] } := by
  have hr2 : List.range 2 = [0, 1] := by decide
  norm_num [carouselGenerateLayout, carouselDefault, mainRectRaw, secondaryBaseRaw,
    mainSplitWidthwise, mainSplitHeightwise, paddedWidth, paddedHeight,
    secondarySplitWidthwise, secondarySplitHeightwise, secondarySizeWidthwise,
    secondarySizeHeightwise, sizeFromFraction, truncQ, mkRect, toU32, carouselViews, hr2,
    secondaryRect, secondaryStrideX, secondaryStrideY, scrollX, scrollY,
    satAdd, satSub, satMul, satI32, i32Min, i32Max]
  decide

theorem grid_default_layout_3 :
    uniformGridGenerateLayout gridDefault 3 1206 768 =
      some { layout_name := "uniform-grid: 2x2"
             views := [{ x := 6, y := 6, width := 594, height := 375 },
                       { x := 606, y := 6, width := 594, height := 375 },
                       { x := 606, y := 387, width := 594, height := 375 }] } := by
  have hname : "uniform-grid: " ++ toString (2 : ℤ) ++ "x" ++ toString (2 : ℤ) =
      "uniform-grid: 2x2" := by decide
  have hr3 : List.range 3 = [0, 1, 2] := by decide
  have hs0 : snakeCell 2 0 = (0, 0) := by decide
  have hs1 : snakeCell 2 1 = (1, 0) := by decide
  have hs2 : snakeCell 2 2 = (1, 1) := by decide
  simp only [uniformGridGenerateLayout, hr3, List.map_cons, List.map_nil,
    Nat.cast_ofNat, Nat.cast_zero, Nat.cast_one]
  rw [gridSearch_default_3]
  norm_num [gridLayout, gridDefault, truncQ, gridAt, toU32, optSeq, hs0, hs1, hs2, hname]
  decide

theorem views_length_eq_view_count_witness :
    (carouselGenerateLayout carouselDefault 3 1206 768).map (fun gl => gl.views.length) =
      some 3 ∧
    (uniformGridGenerateLayout gridDefault 3 1206 768).map (fun gl => gl.views.length) =
      some 3 := by
  have h := views_length_eq_view_count carouselDefault gridDefault 3 1206 768 _ _
    (by norm_num) carousel_default_layout_3 grid_default_layout_3
  constructor
  · rw [carousel_default_layout_3]
    simp [h.1]
  · rw [grid_default_layout_3]
    simp [h.2]

/-- Claim C5: the UniformGrid engine places view index `i` at row
`i / columns`, with the column equal to `i % columns` on even rows and
mirrored to `columns - 1 - i % columns` on odd rows; for a grid with 3
columns and 6 views the traversal visits columns 0,1,2 then 2,1,0. -/
theorem grid_boustrophedon (gc : GridConfig) (vc uw uh : ℕ) (gl : GeneratedLayout)
    (i : ℕ) (hg : uniformGridGenerateLayout gc vc uw uh = some gl) (hi : i < vc) :
    gl.views[i]? =
      gridAt (gridLayout (gridSearch gc ((uw : ℤ), (uh : ℤ)) vc) gc ((uw : ℤ), (uh : ℤ)))
        (if Int.tmod (Int.tdiv (i : ℤ) (gridSearch gc ((uw : ℤ), (uh : ℤ)) vc).size.1) 2 = 0
          then Int.tmod (i : ℤ) (gridSearch gc ((uw : ℤ), (uh : ℤ)) vc).size.1
          else (gridSearch gc ((uw : ℤ), (uh : ℤ)) vc).size.1 - 1 -
            Int.tmod (i : ℤ) (gridSearch gc ((uw : ℤ), (uh : ℤ)) vc).size.1,
          Int.tdiv (i : ℤ) (gridSearch gc ((uw : ℤ), (uh : ℤ)) vc).size.1) ∧
    (List.range 6).map (fun (j : ℕ) => snakeCell 3 (j : ℤ)) =
      [(0, 0), (1, 0), (2, 0), (2, 1), (1, 1), (0, 1)] := by
  constructor
  · simp only [uniformGridGenerateLayout] at hg
    cases hseq : optSeq ((List.range vc).map (fun (j : ℕ) =>
        gridAt (gridLayout (gridSearch gc ((uw : ℤ), (uh : ℤ)) vc) gc ((uw : ℤ), (uh : ℤ)))
          (snakeCell (gridSearch gc ((uw : ℤ), (uh : ℤ)) vc).size.1 (j : ℤ)))) with
    | none =>
      rw [hseq] at hg
      cases hg
    | some vs =>
      rw [hseq] at hg
      cases hg
      have hget := optSeq_getElem hseq i
      rw [hget, List.getElem?_map, List.getElem?_range hi]
      simp [snakeCell]
  · decide

theorem grid_boustrophedon_witness :
    ({ layout_name := "uniform-grid: 2x2"
       views := [{ x := 6, y := 6, width := 594, height := 375 },
                 { x := 606, y := 6, width := 594, height := 375 },
                 { x := 606, y := 387, width := 594, height := 375 }] } :
        GeneratedLayout).views[2]? =
      gridAt (gridLayout (gridSearch gridDefault (((1206 : ℕ) : ℤ), ((768 : ℕ) : ℤ)) 3)
          gridDefault (((1206 : ℕ) : ℤ), ((768 : ℕ) : ℤ)))
        (if Int.tmod (Int.tdiv ((2 : ℕ) : ℤ)
              (gridSearch gridDefault (((1206 : ℕ) : ℤ), ((768 : ℕ) : ℤ)) 3).size.1) 2 = 0
          then Int.tmod ((2 : ℕ) : ℤ)
            (gridSearch gridDefault (((1206 : ℕ) : ℤ), ((768 : ℕ) : ℤ)) 3).size.1
          else (gridSearch gridDefault (((1206 : ℕ) : ℤ), ((768 : ℕ) : ℤ)) 3).size.1 - 1 -
            Int.tmod ((2 : ℕ) : ℤ)
              (gridSearch gridDefault (((1206 : ℕ) : ℤ), ((768 : ℕ) : ℤ)) 3).size.1,
          Int.tdiv ((2 : ℕ) : ℤ)
            (gridSearch gridDefault (((1206 : ℕ) : ℤ), ((768 : ℕ) : ℤ)) 3).size.1) ∧
    (List.range 6).map (fun (j : ℕ) => snakeCell 3 (j : ℤ)) =
      [(0, 0), (1, 0), (2, 0), (2, 1), (1, 1), (0, 1)] :=
  grid_boustrophedon gridDefault 3 1206 768 _ 2 grid_default_layout_3 (by norm_num)

theorem gridStep_cases (gc : GridConfig) (out : ℤ × ℤ) (g : Grid) :
    gridStep gc out g = { size := (g.size.1 + 1, g.size.2) } ∨
      gridStep gc out g = { size := (g.size.1, g.size.2 + 1) } := by
  by_cases h : gridKey gc out { size := (g.size.1 + 1, g.size.2) } ≤
      gridKey gc out { size := (g.size.1, g.size.2 + 1) }
  · exact Or.inl (by simp [gridStep, h])
  · exact Or.inr (by simp [gridStep, h])

theorem gridStep_pos (gc : GridConfig) (out : ℤ × ℤ) (g : Grid)
    (hx : 0 < g.size.1) (hy : 0 < g.size.2) :
    0 < (gridStep gc out g).size.1 ∧ 0 < (gridStep gc out g).size.2 := by
  rcases gridStep_cases gc out g with h | h <;> rw [h] <;> constructor <;> simp <;> omega

theorem totalCells_gridStep (gc : GridConfig) (out : ℤ × ℤ) (g : Grid)
    (hx : 0 < g.size.1) (hy : 0 < g.size.2) :
    totalCells g < totalCells (gridStep gc out g) := by
  rcases gridStep_cases gc out g with h | h <;> rw [h] <;> unfold totalCells <;> simp <;>
    nlinarith

theorem gridSearchAux_covers (gc : GridConfig) (out : ℤ × ℤ) (vc : ℕ) :
    ∀ fuel (g : Grid), 0 < g.size.1 → 0 < g.size.2 →
      vc ≤ (totalCells g).toNat + fuel →
      vc ≤ (totalCells (gridSearchAux gc out vc fuel g)).toNat := by
  intro fuel
  induction fuel with
  | zero =>
    intro g hx hy hb
    simpa [gridSearchAux] using hb
  | succ fuel ih =>
    intro g hx hy hb
    rw [gridSearchAux]
    by_cases hstop : vc ≤ (totalCells g).toNat
    · rw [if_pos hstop]
      exact hstop
    · rw [if_neg hstop]
      obtain ⟨hx2, hy2⟩ := gridStep_pos gc out g hx hy
      have hlt := totalCells_gridStep gc out g hx hy
      have hpos : 0 < totalCells g := mul_pos hx hy
      exact ih (gridStep gc out g) hx2 hy2 (by omega)

/-- Claim C4: the grid-size search terminates — each greedy step considers
exactly the two candidate grids (one more column, one more row), adopts one
of them, and strictly increases the cell count — and the grid it returns
satisfies `columns * rows ≥ view_count`. -/
theorem grid_search_terminates (gc : GridConfig) (out : ℤ × ℤ) (vc : ℕ) (g : Grid)
    (hx : 0 < g.size.1) (hy : 0 < g.size.2) :
    vc ≤ (totalCells (gridSearch gc out vc)).toNat ∧
      (gridStep gc out g = { size := (g.size.1 + 1, g.size.2) } ∨
        gridStep gc out g = { size := (g.size.1, g.size.2 + 1) }) ∧
      totalCells g < totalCells (gridStep gc out g) := by
  refine ⟨?_, gridStep_cases gc out g, totalCells_gridStep gc out g hx hy⟩
  rw [gridSearch]
  apply gridSearchAux_covers gc out vc vc { size := (1, 1) } (by norm_num) (by norm_num)
  simp [totalCells]

theorem grid_search_terminates_witness :
    (2 ≤ (totalCells (gridSearch gridDefault (100, 100) 2)).toNat ∧
      (gridStep gridDefault (100, 100) { size := (3, 4) } = { size := (4, 4) } ∨
        gridStep gridDefault (100, 100) { size := (3, 4) } = { size := (3, 5) }) ∧
      totalCells { size := (3, 4) } <
        totalCells (gridStep gridDefault (100, 100) { size := (3, 4) })) :=
  grid_search_terminates gridDefault (100, 100) 2 { size := (3, 4) }
    (by norm_num) (by norm_num)

theorem secondaryRect_x (b : Rectangle) (sx sy cx cy : ℤ) (i : ℕ)
    (h : satOkAt b.x sx cx i) :
    (secondaryRect b sx sy cx cy i).x = b.x + sx * (i : ℤ) - cx := by
  obtain ⟨h1, h2, h3⟩ := h
  simp only [secondaryRect]
  rw [satMul, satI32_eq h1, satAdd, satI32_eq h2, satSub, satI32_eq h3]

theorem secondaryRect_y (b : Rectangle) (sx sy cx cy : ℤ) (i : ℕ)
    (h : satOkAt b.y sy cy i) :
    (secondaryRect b sx sy cx cy i).y = b.y + sy * (i : ℤ) - cy := by
  obtain ⟨h1, h2, h3⟩ := h
  simp only [secondaryRect]
  rw [satMul, satI32_eq h1, satAdd, satI32_eq h2, satSub, satI32_eq h3]

theorem scrollX_bump (c : CarouselConfig) (uw : ℕ) (h0 : 0 ≤ c.scroll_offset)
    (hs : 0 ≤ secondaryStrideX c uw) :
    scrollX (bumpScroll c) uw = scrollX c uw + secondaryStrideX c uw := by
  unfold scrollX
  have hstride : secondaryStrideX (bumpScroll c) uw = secondaryStrideX c uw := rfl
  rw [hstride]
  have hoff : (bumpScroll c).scroll_offset = c.scroll_offset + 1 := rfl
  rw [hoff]
  have hq : (secondaryStrideX c uw : ℚ) * (c.scroll_offset + 1) =
      (secondaryStrideX c uw : ℚ) * c.scroll_offset + ((secondaryStrideX c uw : ℤ) : ℚ) := by
    ring
  rw [hq]
  exact truncQ_add_int _ _ (mul_nonneg (by exact_mod_cast hs) h0) hs

theorem scrollY_bump (c : CarouselConfig) (uh : ℕ) (h0 : 0 ≤ c.scroll_offset)
    (hs : 0 ≤ secondaryStrideY c uh) :
    scrollY (bumpScroll c) uh = scrollY c uh + secondaryStrideY c uh := by
  unfold scrollY
  have hstride : secondaryStrideY (bumpScroll c) uh = secondaryStrideY c uh := rfl
  rw [hstride]
  have hoff : (bumpScroll c).scroll_offset = c.scroll_offset + 1 := rfl
  rw [hoff]
  have hq : (secondaryStrideY c uh : ℚ) * (c.scroll_offset + 1) =
      (secondaryStrideY c uh : ℚ) * c.scroll_offset + ((secondaryStrideY c uh : ℤ) : ℚ) := by
    ring
  rw [hq]
  exact truncQ_add_int _ _ (mul_nonneg (by exact_mod_cast hs) h0) hs

theorem carouselGenerateLayout_eq_some {c : CarouselConfig} {vc uw uh : ℕ}
    {gl : GeneratedLayout} (hg : carouselGenerateLayout c vc uw uh = some gl) :
    ∃ m b, mkRect (mainRectRaw c uw uh) = some m ∧
      mkRect (secondaryBaseRaw c uw uh) = some b ∧
      gl = { layout_name := "carousel"
             views := carouselViews m
               (secondaryRect b (secondaryStrideX c uw) (secondaryStrideY c uh)
                 (scrollX c uw) (scrollY c uh)) vc } := by
  rw [carouselGenerateLayout] at hg
  cases hm : mkRect (mainRectRaw c uw uh) with
  | none =>
    rw [hm] at hg
    cases hg
  | some m =>
    cases hb : mkRect (secondaryBaseRaw c uw uh) with
    | none =>
      rw [hm, hb] at hg
      cases hg
    | some b =>
      rw [hm, hb] at hg
      cases hg
      exact ⟨m, b, rfl, rfl, rfl⟩

/-- Claim C7 (amended): with `scroll_offset = 0` the scroll shift is zero (so
the layout is the unscrolled one); and for `scroll_offset ≥ 0`, nonnegative
strides and position arithmetic within the `i32` range, replacing
`scroll_offset` by `scroll_offset + 1` shifts every secondary rectangle by
exactly one stride against the stride direction while the main rectangle and
all widths and heights are unchanged.  (For offsets where `stride *
scroll_offset` crosses zero, truncation toward zero makes the shift one
pixel short — see the counterexample.) -/
theorem carousel_scroll_increment (c : CarouselConfig) (vc uw uh i : ℕ)
    (gl gl1 : GeneratedLayout) (r r1 : Rectangle)
    (hg : carouselGenerateLayout c vc uw uh = some gl)
    (hg1 : carouselGenerateLayout (bumpScroll c) vc uw uh = some gl1)
    (hr : gl.views[i + 1]? = some r)
    (hr1 : gl1.views[i + 1]? = some r1)
    (h0 : 0 ≤ c.scroll_offset)
    (hsx : 0 ≤ secondaryStrideX c uw) (hsy : 0 ≤ secondaryStrideY c uh)
    (okx : satOkAt (secondaryBaseRaw c uw uh).x (secondaryStrideX c uw)
      (scrollX c uw) i)
    (okx1 : satOkAt (secondaryBaseRaw c uw uh).x (secondaryStrideX c uw)
      (scrollX c uw + secondaryStrideX c uw) i)
    (oky : satOkAt (secondaryBaseRaw c uw uh).y (secondaryStrideY c uh)
      (scrollY c uh) i)
    (oky1 : satOkAt (secondaryBaseRaw c uw uh).y (secondaryStrideY c uh)
      (scrollY c uh + secondaryStrideY c uh) i) :
    (c.scroll_offset = 0 → scrollX c uw = 0 ∧ scrollY c uh = 0) ∧
      gl1.views[0]? = gl.views[0]? ∧
      r1.width = r.width ∧ r1.height = r.height ∧
      r1.x = r.x - secondaryStrideX c uw ∧ r1.y = r.y - secondaryStrideY c uh := by
  obtain ⟨m, b, hm, hb, hgl⟩ := carouselGenerateLayout_eq_some hg
  obtain ⟨m1, b1, hm1, hb1, hgl1⟩ := carouselGenerateLayout_eq_some hg1
  have hmr : mainRectRaw (bumpScroll c) uw uh = mainRectRaw c uw uh := rfl
  have hbr : secondaryBaseRaw (bumpScroll c) uw uh = secondaryBaseRaw c uw uh := rfl
  have hsxb : secondaryStrideX (bumpScroll c) uw = secondaryStrideX c uw := rfl
  have hsyb : secondaryStrideY (bumpScroll c) uh = secondaryStrideY c uh := rfl
  rw [hmr, hm] at hm1
  rw [hbr, hb] at hb1
  have hmm : m1 = m := (Option.some.inj hm1).symm
  have hbb : b1 = b := (Option.some.inj hb1).symm
  rw [hmm, hbb] at hgl1
  have hzero : c.scroll_offset = 0 → scrollX c uw = 0 ∧ scrollY c uh = 0 := by
    intro hz
    unfold scrollX scrollY
    rw [hz]
    norm_num [truncQ]
  refine ⟨hzero, ?_⟩
  cases vc with
  | zero =>
    rw [hgl] at hr
    simp [carouselViews] at hr
  | succ n =>
    have hr' : ((List.range n).map (secondaryRect b (secondaryStrideX c uw)
        (secondaryStrideY c uh) (scrollX c uw) (scrollY c uh)))[i]? = some r := by
      rw [hgl] at hr
      simpa [carouselViews] using hr
    have hr1' : ((List.range n).map (secondaryRect b (secondaryStrideX (bumpScroll c) uw)
        (secondaryStrideY (bumpScroll c) uh) (scrollX (bumpScroll c) uw)
        (scrollY (bumpScroll c) uh)))[i]? = some r1 := by
      rw [hgl1] at hr1
      simpa [carouselViews] using hr1
    by_cases hi : i < n
    · rw [List.getElem?_map, List.getElem?_range hi] at hr' hr1'
      have hreq : r = secondaryRect b (secondaryStrideX c uw) (secondaryStrideY c uh)
          (scrollX c uw) (scrollY c uh) i := (Option.some.inj hr').symm
      have hr1eq : r1 = secondaryRect b (secondaryStrideX (bumpScroll c) uw)
          (secondaryStrideY (bumpScroll c) uh) (scrollX (bumpScroll c) uw)
          (scrollY (bumpScroll c) uh) i := (Option.some.inj hr1').symm
      have hscx := scrollX_bump c uw h0 hsx
      have hscy := scrollY_bump c uh h0 hsy
      have hbx : b.x = (secondaryBaseRaw c uw uh).x := (mkRect_pos hb).1
      have hby : b.y = (secondaryBaseRaw c uw uh).y := (mkRect_pos hb).2
      have hokx : satOkAt b.x (secondaryStrideX c uw) (scrollX c uw) i := by
        rw [hbx]; exact okx
      have hokx1 : satOkAt b.x (secondaryStrideX c uw)
          (scrollX c uw + secondaryStrideX c uw) i := by
        rw [hbx]; exact okx1
      have hoky : satOkAt b.y (secondaryStrideY c uh) (scrollY c uh) i := by
        rw [hby]; exact oky
      have hoky1 : satOkAt b.y (secondaryStrideY c uh)
          (scrollY c uh + secondaryStrideY c uh) i := by
        rw [hby]; exact oky1
      refine ⟨by rw [hgl, hgl1]; simp [carouselViews], ?_, ?_, ?_, ?_⟩
      · rw [hreq, hr1eq]
        rfl
      · rw [hreq, hr1eq]
        rfl
      · rw [hreq, hr1eq, hsxb, hsyb, hscx, hscy, secondaryRect_x b _ _ _ _ i hokx,
          secondaryRect_x b _ _ _ _ i hokx1]
        ring
      · rw [hreq, hr1eq, hsxb, hsyb, hscx, hscy, secondaryRect_y b _ _ _ _ i hoky,
          secondaryRect_y b _ _ _ _ i hoky1]
        ring
    · rw [List.getElem?_map] at hr'
      rw [List.getElem?_eq_none (by simpa using Nat.le_of_not_lt hi)] at hr'
      cases hr'

/-- Claim C7 counterexample: with `scroll_offset = -1/4` (stride 381), the
scroll shift is `trunc(-95.25) = -95`; after incrementing the offset to
`3/4` it is `trunc(285.75) = 285`.  The secondary rectangle therefore moves
from `y = 101` to `y = -279`, a shift of 380 — not one full stride of 381 —
because truncation toward zero crossed zero. -/
theorem carousel_scroll_increment_cex :
    carouselGenerateLayout { carouselDefault with scroll_offset := -(1 / 4) } 2 1206 768 =
      some { layout_name := "carousel"
             views := [{ x := 6, y := 6, width := 712, height := 756 },
                       { x := 724, y := 101, width := 476, height := 375 }] } ∧
    carouselGenerateLayout (bumpScroll { carouselDefault with scroll_offset := -(1 / 4) })
        2 1206 768 =
      some { layout_name := "carousel"
             views := [{ x := 6, y := 6, width := 712, height := 756 },
                       { x := 724, y := -279, width := 476, height := 375 }] } ∧
    secondaryStrideY { carouselDefault with scroll_offset := -(1 / 4) } 768 = 381 ∧
    (-279 : ℤ) ≠ 101 - 381 := by
  have hr1 : List.range 1 = [0] := by decide
  refine ⟨?_, ?_, ?_, by decide⟩
  · norm_num [carouselGenerateLayout, carouselDefault, mainRectRaw, secondaryBaseRaw,
      mainSplitWidthwise, mainSplitHeightwise, paddedWidth, paddedHeight,
      secondarySplitWidthwise, secondarySplitHeightwise, secondarySizeWidthwise,
      secondarySizeHeightwise, sizeFromFraction, truncQ, Int.ceil_neg, mkRect, toU32,
      carouselViews, hr1, secondaryRect, secondaryStrideX, secondaryStrideY,
      scrollX, scrollY, satAdd, satSub, satMul, satI32, i32Min, i32Max]
    decide
  · norm_num [carouselGenerateLayout, bumpScroll, carouselDefault, mainRectRaw,
      secondaryBaseRaw, mainSplitWidthwise, mainSplitHeightwise, paddedWidth, paddedHeight,
      secondarySplitWidthwise, secondarySplitHeightwise, secondarySizeWidthwise,
      secondarySizeHeightwise, sizeFromFraction, truncQ, Int.ceil_neg, mkRect, toU32,
      carouselViews, hr1, secondaryRect, secondaryStrideX, secondaryStrideY,
      scrollX, scrollY, satAdd, satSub, satMul, satI32, i32Min, i32Max]
    decide
  · norm_num [secondaryStrideY, carouselDefault, secondarySizeHeightwise, sizeFromFraction,
      paddedHeight, truncQ]

theorem carousel_bump_layout_3 :
    carouselGenerateLayout (bumpScroll carouselDefault) 3 1206 768 =
      some { layout_name := "carousel"
             views := [{ x := 6, y := 6, width := 712, height := 756 },
                       { x := 724, y := -375, width := 476, height := 375 },
                       { x := 724, y := 6, width := 476, height := 375 }] } := by
  have hr2 : List.range 2 = [0, 1] := by decide
  norm_num [carouselGenerateLayout, bumpScroll, carouselDefault, mainRectRaw,
    secondaryBaseRaw, mainSplitWidthwise, mainSplitHeightwise, paddedWidth, paddedHeight,
    secondarySplitWidthwise, secondarySplitHeightwise, secondarySizeWidthwise,
    secondarySizeHeightwise, sizeFromFraction, truncQ, mkRect, toU32, carouselViews, hr2,
    secondaryRect, secondaryStrideX, secondaryStrideY, scrollX, scrollY,
    satAdd, satSub, satMul, satI32, i32Min, i32Max]
  decide

theorem carousel_scroll_increment_witness :
    (carouselDefault.scroll_offset = 0 →
      scrollX carouselDefault 1206 = 0 ∧ scrollY carouselDefault 768 = 0) ∧
    ({ layout_name := "carousel"
       views := [{ x := 6, y := 6, width := 712, height := 756 },
                 { x := 724, y := -375, width := 476, height := 375 },
                 { x := 724, y := 6, width := 476, height := 375 }] } :
        GeneratedLayout).views[0]? =
      ({ layout_name := "carousel"
         views := [{ x := 6, y := 6, width := 712, height := 756 },
                   { x := 724, y := 6, width := 476, height := 375 },
                   { x := 724, y := 387, width := 476, height := 375 }] } :
          GeneratedLayout).views[0]? ∧
    ({ x := 724, y := -375, width := 476, height := 375 } : Rectangle).width =
      ({ x := 724, y := 6, width := 476, height := 375 } : Rectangle).width ∧
    ({ x := 724, y := -375, width := 476, height := 375 } : Rectangle).height =
      ({ x := 724, y := 6, width := 476, height := 375 } : Rectangle).height ∧
    ({ x := 724, y := -375, width := 476, height := 375 } : Rectangle).x =
      ({ x := 724, y := 6, width := 476, height := 375 } : Rectangle).x -
        secondaryStrideX carouselDefault 1206 ∧
    ({ x := 724, y := -375, width := 476, height := 375 } : Rectangle).y =
      ({ x := 724, y := 6, width := 476, height := 375 } : Rectangle).y -
        secondaryStrideY carouselDefault 768 :=
  carousel_scroll_increment carouselDefault 3 1206 768 0 _ _ _ _
    carousel_default_layout_3 carousel_bump_layout_3 (by decide) (by decide)
    (by norm_num [carouselDefault])
    (by norm_num [secondaryStrideX, carouselDefault])
    (by norm_num [secondaryStrideY, carouselDefault, secondarySizeHeightwise,
      sizeFromFraction, paddedHeight, truncQ])
    (by norm_num [satOkAt, isI32, i32Min, i32Max, secondaryBaseRaw, carouselDefault,
      mainSplitWidthwise, paddedWidth, paddedHeight, truncQ, secondaryStrideX, scrollX,
      secondarySplitWidthwise, secondarySizeHeightwise, sizeFromFraction])
    (by norm_num [satOkAt, isI32, i32Min, i32Max, secondaryBaseRaw, carouselDefault,
      mainSplitWidthwise, paddedWidth, paddedHeight, truncQ, secondaryStrideX, scrollX,
      secondarySplitWidthwise, secondarySizeHeightwise, sizeFromFraction])
    (by norm_num [satOkAt, isI32, i32Min, i32Max, secondaryBaseRaw, carouselDefault,
      mainSplitWidthwise, paddedWidth, paddedHeight, truncQ, secondaryStrideY, scrollY,
      secondarySplitWidthwise, secondarySizeHeightwise, sizeFromFraction])
    (by norm_num [satOkAt, isI32, i32Min, i32Max, secondaryBaseRaw, carouselDefault,
      mainSplitWidthwise, paddedWidth, paddedHeight, truncQ, secondaryStrideY, scrollY,
      secondarySplitWidthwise, secondarySizeHeightwise, sizeFromFraction])
